import Mathlib

/-!
Shallow embedding of the Perfolio widget layout engine
(internal/widgets/registry.go, internal/common/model/widget.go,
internal/user/repository/widget_repo.go, internal/user/service/widget_service.go,
pkg/apperrors/errors.go), together with theorems settling the frozen claims.

Conventions of the embedding:
* Go `int` is modelled as `Int` (versions and grid coordinates stay far from
  machine bounds in every reachable state considered here).
* The SQL store (table `widgets`) is a `List Widget`; `NOW()` is modelled by an
  explicit `now : Nat` parameter; `uuid.New()` by an explicit `freshId` argument.
* The read-through cache (platform/cache) is modelled as two association lists,
  one per key namespace (`widget:{id}` and `user_widgets:{userID}`).
* Service operations return `(result, new state, effect trace)`; the effect
  trace records store reads/writes, cache accesses and user-service lookups in
  the order the Go code performs them.
-/

deriving instance DecidableEq for Except

namespace Perfolio

/-- Error taxonomy of pkg/apperrors/errors.go. -/
inductive ErrorType where
  | badRequest
  | notFound
  | unauthorized
  | forbidden
  | conflict
  | internalError
deriving Repr, DecidableEq

/-- Application error (pkg/apperrors/errors.go `Error`): a type and a message. -/
structure AppError where
  errType : ErrorType
  message : String
deriving Repr, DecidableEq

/-- apperrors.BadRequest. -/
def AppError.badRequest (m : String) : AppError := ⟨ErrorType.badRequest, m⟩

/-- apperrors.NotFound (the single-message constructor used by the widget code). -/
def AppError.notFound (m : String) : AppError := ⟨ErrorType.notFound, m⟩

/-- apperrors.Forbidden. -/
def AppError.forbidden (m : String) : AppError := ⟨ErrorType.forbidden, m⟩

/-- apperrors.Conflict. -/
def AppError.conflict (m : String) : AppError := ⟨ErrorType.conflict, m⟩

/-- apperrors wrapping of raw (non-taxonomy) errors returned by lower layers. -/
def AppError.internalError (m : String) : AppError := ⟨ErrorType.internalError, m⟩

/-- WidgetTypeConfig (internal/widgets/registry.go).  `defaultSettingsJSON` is
the Go `DefaultSettings` map as serialized by `encoding/json.Marshal`
(which emits object keys in sorted order), since the engine only ever uses the
marshalled string (`GetDefaultSettings`). -/
structure WidgetTypeConfig where
  wtype : String
  displayName : String
  description : String
  defaultComponent : String
  defaultW : Int
  defaultH : Int
  minW : Int
  minH : Int
  maxW : Int
  maxH : Int
  fieldTypes : List (String × String)
  requiredFields : List String
  defaultSettingsJSON : String
  customizations : List String
deriving Repr, DecidableEq

/-- The "experience" entry of the registry (internal/widgets/registry.go). -/
def experienceConfig : WidgetTypeConfig :=
  { wtype := "experience"
    displayName := "Work Experience"
    description := "Showcase your professional experience"
    defaultComponent := "ExperienceWidget"
    defaultW := 6, defaultH := 4
    minW := 3, minH := 2
    maxW := 12, maxH := 8
    fieldTypes :=
      [("experiences", "array"), ("experiences.company", "string"),
       ("experiences.title", "string"), ("experiences.startDate", "string"),
       ("experiences.endDate", "string"), ("experiences.description", "string"),
       ("showDates", "boolean")]
    requiredFields :=
      ["experiences", "experiences.company", "experiences.title",
       "experiences.startDate"]
    defaultSettingsJSON := "\x7b\"experiences\":[],\"showDates\":true\x7d"
    customizations := ["backgroundColor", "borderRadius", "showTitle"] }

/-- The "education" entry of the registry (internal/widgets/registry.go). -/
def educationConfig : WidgetTypeConfig :=
  { wtype := "education"
    displayName := "Education"
    description := "Showcase your educational background"
    defaultComponent := "EducationWidget"
    defaultW := 6, defaultH := 3
    minW := 3, minH := 2
    maxW := 12, maxH := 6
    fieldTypes :=
      [("schools", "array"), ("schools.institution", "string"),
       ("schools.degree", "string"), ("schools.field", "string"),
       ("schools.startDate", "string"), ("schools.endDate", "string")]
    requiredFields := ["schools", "schools.institution", "schools.startDate"]
    defaultSettingsJSON := "\x7b\"schools\":[]\x7d"
    customizations := ["backgroundColor", "borderRadius", "showTitle"] }

/-- The Go zero value of WidgetTypeConfig (what `config, _ := GetWidgetTypeConfig`
leaves behind when the lookup fails). -/
def zeroConfig : WidgetTypeConfig :=
  { wtype := "", displayName := "", description := "", defaultComponent := ""
    defaultW := 0, defaultH := 0, minW := 0, minH := 0, maxW := 0, maxH := 0
    fieldTypes := [], requiredFields := [], defaultSettingsJSON := ""
    customizations := [] }

/-- Lookup in the `Registry` map (internal/widgets/registry.go). -/
def registryFind (t : String) : Option WidgetTypeConfig :=
  if t = "experience" then some experienceConfig
  else if t = "education" then some educationConfig
  else none

/-- GetWidgetTypeConfig (internal/widgets/registry.go): descriptor or a raw
`unknown widget type` error. -/
def getWidgetTypeConfig (t : String) : Except String WidgetTypeConfig :=
  match registryFind t with
  | some c => Except.ok c
  | none => Except.error ("unknown widget type: " ++ t)

/-- ValidWidgetType (internal/widgets/registry.go). -/
def validWidgetType (t : String) : Bool := (registryFind t).isSome

/-- GetDefaultSettings (internal/widgets/registry.go): the marshalled default
settings of a registered type. -/
def getDefaultSettings (t : String) : Except String String :=
  match getWidgetTypeConfig t with
  | Except.error e => Except.error e
  | Except.ok c => Except.ok c.defaultSettingsJSON

/-- ValidateWidgetSettings (internal/widgets/validator.go): resolve the
descriptor, accept an empty payload, otherwise run the schema evaluation.
The schema evaluation itself is performed by the external
github.com/xeipuuv/gojsonschema library, so it enters the embedding as the
parameter `schemaOk`. -/
def validateWidgetSettings (schemaOk : String → String → Bool)
    (widgetType settings : String) : Except String Unit :=
  match getWidgetTypeConfig widgetType with
  | Except.error e => Except.error e
  | Except.ok _ =>
    if settings = "" then Except.ok ()
    else if schemaOk widgetType settings then Except.ok ()
    else Except.error "invalid settings"

/-- Widget (internal/common/model/widget.go).  Timestamps are abstract ticks. -/
structure Widget where
  id : String
  userID : String
  wtype : String
  component : String
  x : Int
  y : Int
  w : Int
  h : Int
  settings : Option String
  displayName : Option String
  isVisible : Bool
  version : Int
  createdAt : Nat
  updatedAt : Nat
  deletedAt : Option Nat
deriving Repr, DecidableEq

/-- CreateWidgetRequest (internal/common/model/widget.go). -/
structure CreateWidgetRequest where
  wtype : String
  component : String
  x : Int
  y : Int
  w : Int
  h : Int
  settings : String
  displayName : String
deriving Repr, DecidableEq

/-- UpdateWidgetRequest (internal/common/model/widget.go): optional fields are
pointers in Go, `Option` here. -/
structure UpdateWidgetRequest where
  wtype : Option String
  component : Option String
  x : Option Int
  y : Option Int
  w : Option Int
  h : Option Int
  settings : Option String
  displayName : Option String
  isVisible : Option Bool
  version : Option Int
deriving Repr, DecidableEq

/-- WidgetPositionUpdate (internal/common/model/widget.go). -/
structure WidgetPositionUpdate where
  id : String
  userID : String
  x : Int
  y : Int
  w : Int
  h : Int
  version : Int
deriving Repr, DecidableEq

/-- BatchUpdateWidgetsRequest (internal/common/model/widget.go). -/
structure BatchUpdateWidgetsRequest where
  updates : List WidgetPositionUpdate
deriving Repr, DecidableEq

/-- The `validate` struct tags of CreateWidgetRequest
(internal/common/model/widget.go): Type and Component `required` (non-zero,
i.e. non-empty string), X and Y `min=0`, W `required,min=1,max=12`,
H `required,min=1`.  The go-playground validator semantics of these tags is
modelled directly from the tag strings. -/
def CreateWidgetRequest.validB (r : CreateWidgetRequest) : Bool :=
  (r.wtype ≠ "") && (r.component ≠ "") && (0 ≤ r.x) && (0 ≤ r.y) &&
  (1 ≤ r.w) && (r.w ≤ 12) && (1 ≤ r.h)

/-- The `validate` struct tags of UpdateWidgetRequest: bounds apply only to
fields that are present (`omitempty`); Version is `required` (non-nil pointer). -/
def UpdateWidgetRequest.validB (r : UpdateWidgetRequest) : Bool :=
  (match r.x with | some v => (0 ≤ v : Bool) | none => true) &&
  (match r.y with | some v => (0 ≤ v : Bool) | none => true) &&
  (match r.w with | some v => (1 ≤ v) && (v ≤ 12) | none => true) &&
  (match r.h with | some v => (1 ≤ v : Bool) | none => true) &&
  r.version.isSome

/-- The `validate` struct tags of WidgetPositionUpdate: ID and UserID
`required`, X and Y `min=0`, W `min=1,max=12`, H `min=1`, Version `required`
(a `required` int is non-zero under go-playground semantics). -/
def WidgetPositionUpdate.validB (u : WidgetPositionUpdate) : Bool :=
  (u.id ≠ "") && (u.userID ≠ "") && (0 ≤ u.x) && (0 ≤ u.y) &&
  (1 ≤ u.w) && (u.w ≤ 12) && (1 ≤ u.h) && (u.version ≠ 0)

/-- The `validate` tags of BatchUpdateWidgetsRequest: `required,dive` — each
entry validates (`required` on a slice is a nil check, which JSON-decoded
request bodies always pass, so only the per-entry checks remain). -/
def BatchUpdateWidgetsRequest.validB (r : BatchUpdateWidgetsRequest) : Bool :=
  r.updates.all (fun u => u.validB)

/-! ## Widget store (internal/user/repository/widget_repo.go)

The `widgets` table is a `List Widget`.  SQL `UPDATE ... WHERE p` touches every
row satisfying `p` (the schema's primary key makes that at most one row in any
real database state; theorems that need uniqueness take a `Nodup` hypothesis).
A statement `RETURNING id` read through `QueryRow` yields `sql.ErrNoRows`
exactly when zero rows matched. -/

/-- Row predicate of the single-update statement: id, owner, expected previous
version, not soft-deleted (widget_repo.go `Update`, WHERE clause). -/
def updateMatches (wd : Widget) (r : Widget) : Bool :=
  (r.id = wd.id) && (r.userID = wd.userID) && (r.version = wd.version - 1) &&
  r.deletedAt.isNone

/-- GetByID (widget_repo.go): first row with the id that is not soft-deleted,
else NotFound. -/
def repoGetByID (store : List Widget) (id : String) : Except AppError Widget :=
  match store.find? (fun r => (r.id = id) && r.deletedAt.isNone) with
  | some wd => Except.ok wd
  | none => Except.error (AppError.notFound ("widget with ID " ++ id))

/-- Ordering key of GetByUserID: `ORDER BY y ASC, x ASC`. -/
def posLE (a b : Widget) : Bool :=
  (a.y < b.y) || ((a.y = b.y) && (a.x ≤ b.x))

/-- Insert a widget into a position-sorted list (after any row that compares
less-or-equal, matching a stable sort). -/
def insertByPos (wd : Widget) : List Widget → List Widget
  | [] => [wd]
  | r :: rest => if posLE r wd then r :: insertByPos wd rest else wd :: r :: rest

/-- Sort widgets by `(y, x)` ascending (insertion sort). -/
def sortByPos : List Widget → List Widget
  | [] => []
  | r :: rest => insertByPos r (sortByPos rest)

/-- GetByUserID (widget_repo.go): non-deleted rows of the owner, ordered by
`y ASC, x ASC`. -/
def repoGetByUserID (store : List Widget) (userID : String) : List Widget :=
  sortByPos (store.filter (fun r => (r.userID = userID) && r.deletedAt.isNone))

/-- Create (widget_repo.go): INSERT; the table's uniqueness constraint on `id`
rejects a duplicate (surfaced as a raw wrapped error, not a taxonomy error). -/
def repoCreate (store : List Widget) (wd : Widget) : Except AppError (List Widget) :=
  if store.any (fun r => r.id = wd.id) then
    Except.error (AppError.internalError ("create widget: duplicate key " ++ wd.id))
  else Except.ok (store ++ [wd])

/-- The SET clause of the single-update statement (widget_repo.go `Update`):
overwrite all mutable columns with the incoming widget's values, take its
(already incremented) version, stamp `updated_at`. -/
def applyRepoUpdate (wd : Widget) (now : Nat) (r : Widget) : Widget :=
  { r with wtype := wd.wtype, component := wd.component, x := wd.x,
           y := wd.y, w := wd.w, h := wd.h, settings := wd.settings,
           displayName := wd.displayName, isVisible := wd.isVisible,
           version := wd.version, updatedAt := now }

/-- Update (widget_repo.go): conditional update against
`id / user_id / version = wd.version - 1 / deleted_at IS NULL`; on zero rows, a
disambiguating GetByID decides NotFound versus Conflict (the conflict message
carries the observed current version and the expected one). -/
def repoUpdate (store : List Widget) (wd : Widget) (now : Nat) :
    Except AppError (List Widget) :=
  if store.any (updateMatches wd) then
    Except.ok (store.map (fun r =>
      if updateMatches wd r then applyRepoUpdate wd now r else r))
  else
    match repoGetByID store wd.id with
    | Except.error _ => Except.error (AppError.notFound ("widget: " ++ wd.id))
    | Except.ok current =>
      Except.error (AppError.conflict
        ("widget version conflict: current=" ++ toString current.version ++
         ", expected=" ++ toString (wd.version - 1)))

/-- Delete (widget_repo.go): soft delete — set `deleted_at` on the not-yet
deleted row; zero rows matched is NotFound (so deleting twice is NotFound). -/
def repoDelete (store : List Widget) (id : String) (now : Nat) :
    Except AppError (List Widget) :=
  if store.any (fun r => (r.id = id) && r.deletedAt.isNone) then
    Except.ok (store.map (fun r =>
      if (r.id = id) && r.deletedAt.isNone then { r with deletedAt := some now }
      else r))
  else Except.error (AppError.notFound ("widget: " ++ id))

/-- Row predicate of the batch position-update statement: id, owner, asserted
version, not soft-deleted (widget_repo.go `BatchUpdatePositions`, WHERE clause). -/
def batchMatches (u : WidgetPositionUpdate) (r : Widget) : Bool :=
  (r.id = u.id) && (r.userID = u.userID) && (r.version = u.version) &&
  r.deletedAt.isNone

/-- The SET clause of the batch statement (widget_repo.go
`BatchUpdatePositions`): new position and size, `version = version + 1`,
stamp `updated_at`. -/
def applyBatchRow (u : WidgetPositionUpdate) (now : Nat) (r : Widget) : Widget :=
  { r with x := u.x, y := u.y, w := u.w, h := u.h,
           version := r.version + 1, updatedAt := now }

/-- One iteration of the BatchUpdatePositions loop: the conditional position
update executed inside the transaction against the in-transaction state `work`;
on zero rows, the disambiguating `r.GetByID` goes through `r.db` — the
*committed* pre-transaction state `orig` — and decides NotFound versus Conflict. -/
def applyPositionUpdate (orig : List Widget) (now : Nat) (work : List Widget)
    (u : WidgetPositionUpdate) : Except AppError (List Widget) :=
  if work.any (batchMatches u) then
    Except.ok (work.map (fun r =>
      if batchMatches u r then applyBatchRow u now r else r))
  else
    match repoGetByID orig u.id with
    | Except.error _ => Except.error (AppError.notFound ("widget: " ++ u.id))
    | Except.ok wd =>
      Except.error (AppError.conflict
        ("widget version conflict for ID " ++ u.id ++ ": current=" ++
         toString wd.version ++ ", expected=" ++ toString u.version))

/-- The loop of BatchUpdatePositions over the prepared statement, threading the
in-transaction state; the first failing entry aborts (the deferred
`tx.Rollback` then discards `work`). -/
def batchLoop (orig : List Widget) (now : Nat) (work : List Widget) :
    List WidgetPositionUpdate → Except AppError (List Widget)
  | [] => Except.ok work
  | u :: rest =>
    match applyPositionUpdate orig now work u with
    | Except.error e => Except.error e
    | Except.ok work2 => batchLoop orig now work2 rest

/-- BatchUpdatePositions (widget_repo.go): one transaction around the whole
batch; on success the final in-transaction state commits, on any failure the
caller's store is left untouched. -/
def repoBatchUpdatePositions (store : List Widget)
    (updates : List WidgetPositionUpdate) (now : Nat) :
    Except AppError (List Widget) :=
  batchLoop store now store updates

/-! ## Widget layout engine (internal/user/service/widget_service.go)

Engine state: the store, the two cache key namespaces used by the widget
service, and the set of existing user ids (the external user-lookup
collaborator `userService.GetUserByID`, internal/user/service/user_service.go). -/

/-- An observable side effect of a service call, in program order. -/
inductive Effect where
  | storeRead
  | storeWrite
  | cacheGet (key : String)
  | cacheSet (key : String)
  | cacheDelete (key : String)
  | userLookup (id : String)
deriving Repr, DecidableEq

/-- Whether an effect touches widget storage. -/
def Effect.isStoreOp : Effect → Bool
  | Effect.storeRead => true
  | Effect.storeWrite => true
  | _ => false

/-- First value bound to a key in an association list. -/
def assocFind {α : Type} (l : List (String × α)) (k : String) : Option α :=
  (l.find? (fun p => p.1 = k)).map (fun p => p.2)

/-- `cache.Set`: bind a key, replacing any previous binding. -/
def assocSet {α : Type} (l : List (String × α)) (k : String) (v : α) :
    List (String × α) :=
  (k, v) :: l.filter (fun p => ¬ p.1 = k)

/-- `cache.Delete`: drop a key. -/
def assocDelete {α : Type} (l : List (String × α)) (k : String) :
    List (String × α) :=
  l.filter (fun p => ¬ p.1 = k)

/-- State threaded through the widget engine. -/
structure SysState where
  store : List Widget
  widgetCache : List (String × Widget)
  listCache : List (String × List Widget)
  users : List String
deriving Repr, DecidableEq

/-- userService.GetUserByID (internal/user/service/user_service.go) reduced to
the existence check the widget engine consumes: empty id is BadRequest, a
missing user is NotFound (from user_repo.go `GetByID`). -/
def getUserByID (st : SysState) (id : String) : Except AppError Unit :=
  if id = "" then Except.error (AppError.badRequest "user ID cannot be empty")
  else if st.users.contains id then Except.ok ()
  else Except.error (AppError.notFound ("user: " ++ id))

/-- GetWidgetByID (widget_service.go): empty-id guard, read-through cache on
key `widget:{id}`, repository read, cache fill. -/
def getWidgetByID (st : SysState) (id : String) :
    Except AppError Widget × SysState × List Effect :=
  if id = "" then
    (Except.error (AppError.badRequest "widget ID cannot be empty"), st, [])
  else
    match assocFind st.widgetCache ("widget:" ++ id) with
    | some wd => (Except.ok wd, st, [Effect.cacheGet ("widget:" ++ id)])
    | none =>
      match repoGetByID st.store id with
      | Except.error e =>
        (Except.error e, st, [Effect.cacheGet ("widget:" ++ id), Effect.storeRead])
      | Except.ok wd =>
        (Except.ok wd,
         { st with widgetCache := assocSet st.widgetCache ("widget:" ++ id) wd },
         [Effect.cacheGet ("widget:" ++ id), Effect.storeRead,
          Effect.cacheSet ("widget:" ++ id)])

/-- DeleteWidget (widget_service.go): empty-id guard, fetch, ownership check,
soft delete, invalidation of both cache keys. -/
def deleteWidget (st : SysState) (id userID : String) (now : Nat) :
    Except AppError Unit × SysState × List Effect :=
  if id = "" then
    (Except.error (AppError.badRequest "widget ID cannot be empty"), st, [])
  else
    match getWidgetByID st id with
    | (Except.error e, st1, fx) => (Except.error e, st1, fx)
    | (Except.ok wd, st1, fx) =>
      if wd.userID ≠ userID then
        (Except.error (AppError.forbidden "you don't have permission to delete this widget"),
         st1, fx)
      else
        match repoDelete st1.store id now with
        | Except.error e => (Except.error e, st1, fx ++ [Effect.storeWrite])
        | Except.ok store2 =>
          (Except.ok (),
           { st1 with store := store2,
                      widgetCache := assocDelete st1.widgetCache ("widget:" ++ id),
                      listCache := assocDelete st1.listCache ("user_widgets:" ++ userID) },
           fx ++ [Effect.storeWrite, Effect.cacheDelete ("widget:" ++ id),
                  Effect.cacheDelete ("user_widgets:" ++ userID)])

/-- The widget constructed by CreateWidget (widget_service.go): fresh uuid,
version 1, visible; the component falls back to the registered type's default
component when the request leaves it empty (`config, _ := GetWidgetTypeConfig`
with the error ignored, zero-value config when the type is unknown); settings
and display name are stored only when non-empty (`effSettings` is
`req.Settings` after the default-substitution step). -/
def builtWidget (userID : String) (req : CreateWidgetRequest)
    (effSettings freshId : String) (now : Nat) : Widget :=
  { id := freshId, userID := userID, wtype := req.wtype,
    component := if req.component = "" then
        (((getWidgetTypeConfig req.wtype).toOption).getD zeroConfig).defaultComponent
      else req.component,
    x := req.x, y := req.y, w := req.w, h := req.h,
    settings := if effSettings ≠ "" then some effSettings else none,
    displayName := if req.displayName ≠ "" then some req.displayName else none,
    isVisible := true, version := 1,
    createdAt := now, updatedAt := now, deletedAt := none }

/-- CreateWidget (widget_service.go): request validation, type check, settings
validation or substitution of the type's defaults, user existence, component
defaulting, INSERT, list-cache invalidation.  `freshId` stands for
`uuid.New().String()` and `now` for the database's `NOW()`. -/
def createWidget (st : SysState) (userID : String) (req : CreateWidgetRequest)
    (schemaOk : String → String → Bool) (freshId : String) (now : Nat) :
    Except AppError Widget × SysState × List Effect :=
  if ¬ req.validB then
    (Except.error (AppError.badRequest "invalid create widget request"), st, [])
  else if ¬ validWidgetType req.wtype then
    (Except.error (AppError.badRequest ("invalid widget type: " ++ req.wtype)), st, [])
  else
    match
      (if req.settings ≠ "" then
        match validateWidgetSettings schemaOk req.wtype req.settings with
        | Except.error m => Except.error (AppError.badRequest m)
        | Except.ok _ => Except.ok req.settings
      else
        match getDefaultSettings req.wtype with
        | Except.error m => Except.error (AppError.internalError m)
        | Except.ok d => Except.ok d) with
    | Except.error e => (Except.error e, st, [])
    | Except.ok effSettings =>
      match getUserByID st userID with
      | Except.error e => (Except.error e, st, [Effect.userLookup userID])
      | Except.ok _ =>
        match repoCreate st.store (builtWidget userID req effSettings freshId now) with
        | Except.error e =>
          (Except.error e, st, [Effect.userLookup userID, Effect.storeWrite])
        | Except.ok store2 =>
          (Except.ok (builtWidget userID req effSettings freshId now),
           { st with store := store2,
                     listCache := assocDelete st.listCache ("user_widgets:" ++ userID) },
           [Effect.userLookup userID, Effect.storeWrite,
            Effect.cacheDelete ("user_widgets:" ++ userID)])

/-- The type-change / settings block of UpdateWidget (widget_service.go):
returns the widget with its (possibly new) type together with the effective
settings of the request after the block (Go mutates `req.Settings` in place
when substituting the new type's defaults). -/
def resolveTypeAndSettings (schemaOk : String → String → Bool) (wd : Widget)
    (req : UpdateWidgetRequest) : Except AppError (Widget × Option String) :=
  match req.wtype with
  | some t =>
    if t ≠ wd.wtype then
      if ¬ validWidgetType t then
        Except.error (AppError.badRequest ("invalid widget type: " ++ t))
      else
        match req.settings with
        | some s =>
          match validateWidgetSettings schemaOk t s with
          | Except.error m => Except.error (AppError.badRequest m)
          | Except.ok _ => Except.ok ({ wd with wtype := t }, some s)
        | none =>
          match getDefaultSettings t with
          | Except.error m => Except.error (AppError.internalError m)
          | Except.ok d => Except.ok ({ wd with wtype := t }, some d)
    else
      match req.settings with
      | some s =>
        match validateWidgetSettings schemaOk wd.wtype s with
        | Except.error m => Except.error (AppError.badRequest m)
        | Except.ok _ => Except.ok (wd, some s)
      | none => Except.ok (wd, none)
  | none =>
    match req.settings with
    | some s =>
      match validateWidgetSettings schemaOk wd.wtype s with
      | Except.error m => Except.error (AppError.badRequest m)
      | Except.ok _ => Except.ok (wd, some s)
    | none => Except.ok (wd, none)

/-- The field-overwrite block of UpdateWidget: each conditional assignment
`if req.F != nil { widget.F = *req.F }` overwrites field F exactly when it is
present in the request (`effSettings` is the request's settings after the
type-change block; the assignments are independent, so the sequence is
rendered field-wise), then `widget.Version++`. -/
def applyFieldUpdates (wd : Widget) (req : UpdateWidgetRequest)
    (effSettings : Option String) : Widget :=
  { wd with
    component := match req.component with | some c => c | none => wd.component,
    x := match req.x with | some v => v | none => wd.x,
    y := match req.y with | some v => v | none => wd.y,
    w := match req.w with | some v => v | none => wd.w,
    h := match req.h with | some v => v | none => wd.h,
    settings := match effSettings with | some s => some s | none => wd.settings,
    displayName := match req.displayName with
                   | some d => some d | none => wd.displayName,
    isVisible := match req.isVisible with | some b => b | none => wd.isVisible,
    version := wd.version + 1 }

/-- UpdateWidget (widget_service.go): empty-id and missing-version guards,
request validation, fetch, ownership check, optimistic-concurrency check
against the fetched version, type/settings resolution, field overwrites,
version-checked store update, cache invalidation. -/
def updateWidget (st : SysState) (id userID : String)
    (req : UpdateWidgetRequest) (schemaOk : String → String → Bool) (now : Nat) :
    Except AppError Widget × SysState × List Effect :=
  if id = "" then
    (Except.error (AppError.badRequest "widget ID cannot be empty"), st, [])
  else
    match req.version with
    | none =>
      (Except.error (AppError.badRequest "version is required for updates"), st, [])
    | some v =>
      if ¬ req.validB then
        (Except.error (AppError.badRequest "invalid update widget request"), st, [])
      else
        match getWidgetByID st id with
        | (Except.error e, st1, fx) => (Except.error e, st1, fx)
        | (Except.ok wd, st1, fx) =>
          if wd.userID ≠ userID then
            (Except.error (AppError.forbidden "you don't have permission to update this widget"),
             st1, fx)
          else if wd.version ≠ v then
            (Except.error (AppError.conflict "widget has been modified, please refresh and try again"),
             st1, fx)
          else
            match resolveTypeAndSettings schemaOk wd req with
            | Except.error e => (Except.error e, st1, fx)
            | Except.ok (wd1, effSettings) =>
              match repoUpdate st1.store (applyFieldUpdates wd1 req effSettings) now with
              | Except.error e => (Except.error e, st1, fx ++ [Effect.storeWrite])
              | Except.ok store2 =>
                (Except.ok (applyFieldUpdates wd1 req effSettings),
                 { st1 with store := store2,
                            widgetCache := assocDelete st1.widgetCache ("widget:" ++ id),
                            listCache := assocDelete st1.listCache ("user_widgets:" ++ userID) },
                 fx ++ [Effect.storeWrite, Effect.cacheDelete ("widget:" ++ id),
                        Effect.cacheDelete ("user_widgets:" ++ userID)])

/-- BatchUpdateWidgets (widget_service.go): request validation, user existence,
up-front ownership check over every entry (the loop returns Forbidden at the
first entry whose asserted owner is not the caller, before any repository
call), transactional batch update, one list-cache invalidation. -/
def batchUpdateWidgets (st : SysState) (userID : String)
    (req : BatchUpdateWidgetsRequest) (now : Nat) :
    Except AppError Unit × SysState × List Effect :=
  if ¬ req.validB then
    (Except.error (AppError.badRequest "invalid batch update request"), st, [])
  else
    match getUserByID st userID with
    | Except.error e => (Except.error e, st, [Effect.userLookup userID])
    | Except.ok _ =>
      if ¬ req.updates.all (fun u => u.userID = userID) then
        (Except.error (AppError.forbidden "you can only update your own widgets"),
         st, [Effect.userLookup userID])
      else
        match repoBatchUpdatePositions st.store req.updates now with
        | Except.error e =>
          (Except.error e, st, [Effect.userLookup userID, Effect.storeWrite])
        | Except.ok store2 =>
          (Except.ok (),
           { st with store := store2,
                     listCache := assocDelete st.listCache ("user_widgets:" ++ userID) },
           [Effect.userLookup userID, Effect.storeWrite,
            Effect.cacheDelete ("user_widgets:" ++ userID)])

/-! ## Frame facts about the store

The table's primary-key constraint (distinct ids) is the one assumption used
by theorems about arbitrary states.  No assumption is made about the
read-through widget cache: `BatchUpdateWidgets` invalidates only
`user_widgets:{uid}`, so `widget:{id}` entries can go stale; theorems about a
particular run condition on what the fetch actually returned instead. -/

/-- Distinct widget ids: the table's primary-key constraint. -/
def storeUniqueIds (store : List Widget) : Prop :=
  (store.map (fun r => r.id)).Nodup

/-- The fetch never changes the store (it only fills the cache). -/
theorem getWidgetByID_store_eq (st : SysState) (id : String) :
    ((getWidgetByID st id).2.1).store = st.store := by
  unfold getWidgetByID
  repeat' split
  all_goals rfl

/-! ## C10 -/

/-- C10: calling the engine's get, update or delete with an empty widget id
returns BadRequest, leaves the whole state (store and caches) unchanged, and
performs no store read, no store write and no cache access (empty effect
trace). -/
theorem emptyId_badRequest_no_effects (st : SysState) (userID : String)
    (req : UpdateWidgetRequest) (schemaOk : String → String → Bool) (now : Nat) :
    getWidgetByID st "" =
      (Except.error (AppError.badRequest "widget ID cannot be empty"), st, []) ∧
    updateWidget st "" userID req schemaOk now =
      (Except.error (AppError.badRequest "widget ID cannot be empty"), st, []) ∧
    deleteWidget st "" userID now =
      (Except.error (AppError.badRequest "widget ID cannot be empty"), st, []) := by
  refine ⟨?_, ?_, ?_⟩ <;> simp [getWidgetByID, updateWidget, deleteWidget]

/-! ## C1 -/

/-- C1: the batch position update is all-or-nothing — whenever the engine
returns any error for a batch (in particular when one entry misses its
conditional predicate), the store is exactly its pre-call value, so every
widget's position, size and version are unchanged. -/
theorem batchUpdate_allOrNothing (st : SysState) (userID : String)
    (req : BatchUpdateWidgetsRequest) (now : Nat) (e : AppError)
    (st' : SysState) (fx : List Effect)
    (h : batchUpdateWidgets st userID req now = (Except.error e, st', fx)) :
    st'.store = st.store := by
  unfold batchUpdateWidgets at h
  repeat' split at h
  all_goals simp_all

/-! ## Concrete fixtures for witnesses and counterexamples -/

/-- A schema evaluator that accepts every payload (concrete instantiation of
the external gojsonschema collaborator). -/
def schemaOkAll : String → String → Bool := fun _ _ => true

/-- A live "experience" widget owned by u1. -/
def wA : Widget :=
  { id := "w1", userID := "u1", wtype := "experience",
    component := "ExperienceWidget", x := 0, y := 0, w := 6, h := 4,
    settings := some "custom", displayName := none, isVisible := true,
    version := 1, createdAt := 0, updatedAt := 0, deletedAt := none }

/-- A second widget of the same owner. -/
def wB : Widget := { wA with id := "w2", x := 1 }

/-- A third widget of the same owner. -/
def wC : Widget := { wA with id := "w3", x := 2 }

/-- State with one widget, empty caches, one user. -/
def stOne : SysState :=
  { store := [wA], widgetCache := [], listCache := [], users := ["u1"] }

/-- State with three widgets of one owner. -/
def stThree : SysState :=
  { store := [wA, wB, wC], widgetCache := [], listCache := [], users := ["u1"] }

/-- A position entry for the batch fixtures. -/
def posEntry (i : String) (v : Int) : WidgetPositionUpdate :=
  { id := i, userID := "u1", x := 3, y := 3, w := 4, h := 4, version := v }

/-! ## C5 -/

/-- C5: when some entry of a batch asserts an owner different from the
authenticated caller (and the request validates and the caller exists), the
engine returns Forbidden with the whole state — store and caches — unchanged,
and its effect trace is the single user lookup: no store operation happened,
so no entry was applied. -/
theorem batch_foreign_owner_forbidden_untouched (st : SysState)
    (userID : String) (req : BatchUpdateWidgetsRequest) (now : Nat)
    (hvalid : req.validB = true)
    (husr : getUserByID st userID = Except.ok ())
    (hforeign : ∃ u ∈ req.updates, u.userID ≠ userID) :
    batchUpdateWidgets st userID req now =
      (Except.error (AppError.forbidden "you can only update your own widgets"),
       st, [Effect.userLookup userID]) ∧
    (Effect.userLookup userID).isStoreOp = false := by
  have hall : ¬ (req.updates.all (fun u => u.userID = userID) = true) := by
    simp only [List.all_eq_true, decide_eq_true_eq]
    intro hp
    obtain ⟨u, hu, hne⟩ := hforeign
    exact hne (hp u hu)
  constructor
  · unfold batchUpdateWidgets
    simp [hvalid, husr, hall]
  · rfl

/-- Witness for C5: a concrete batch whose second entry asserts owner u2 while
u1 calls. -/
theorem batch_foreign_owner_forbidden_untouched_witness :
    ({ updates := [posEntry "w1" 1,
                   { posEntry "w2" 1 with userID := "u2" }] } :
      BatchUpdateWidgetsRequest).validB = true ∧
    batchUpdateWidgets stThree "u1"
      { updates := [posEntry "w1" 1, { posEntry "w2" 1 with userID := "u2" }] } 9 =
      (Except.error (AppError.forbidden "you can only update your own widgets"),
       stThree, [Effect.userLookup "u1"]) :=
  ⟨by decide,
   (batch_foreign_owner_forbidden_untouched stThree "u1"
      { updates := [posEntry "w1" 1, { posEntry "w2" 1 with userID := "u2" }] } 9
      (by decide) (by decide)
      ⟨{ posEntry "w2" 1 with userID := "u2" }, by decide, by decide⟩).1⟩

/-- Witness for C1: the spec's scenario — a batch of three position updates
whose second entry carries a stale version fails as a whole and leaves the
store identical to its pre-call state. -/
theorem batchUpdate_allOrNothing_witness :
    batchUpdateWidgets stThree "u1"
      { updates := [posEntry "w1" 1, posEntry "w2" 9, posEntry "w3" 1] } 9 =
      (Except.error (AppError.conflict
         "widget version conflict for ID w2: current=1, expected=9"),
       stThree, [Effect.userLookup "u1", Effect.storeWrite]) ∧
    stThree.store = stThree.store :=
  ⟨by decide,
   batchUpdate_allOrNothing stThree "u1"
     { updates := [posEntry "w1" 1, posEntry "w2" 9, posEntry "w3" 1] } 9
     (AppError.conflict "widget version conflict for ID w2: current=1, expected=9")
     stThree [Effect.userLookup "u1", Effect.storeWrite] (by decide)⟩

/-! ## Inversion lemmas for the update pipeline -/

/-- The type-change block only ever touches the widget's type (and decides the
effective settings); every other field survives unchanged. -/
theorem resolveTypeAndSettings_frame {schemaOk : String → String → Bool}
    {wd wd1 : Widget} {req : UpdateWidgetRequest} {effS : Option String}
    (h : resolveTypeAndSettings schemaOk wd req = Except.ok (wd1, effS)) :
    wd1 = { wd with wtype := wd1.wtype } := by
  unfold resolveTypeAndSettings at h
  repeat' split at h
  all_goals cases h
  all_goals rfl

/-- Successful repository update: some row matched the conditional predicate,
and the new store is the row-wise application of the SET clause to matching
rows. -/
theorem repoUpdate_ok {store : List Widget} {wd : Widget} {now : Nat}
    {store2 : List Widget} (h : repoUpdate store wd now = Except.ok store2) :
    store.any (updateMatches wd) = true ∧
    store2 = store.map (fun r =>
      if updateMatches wd r then applyRepoUpdate wd now r else r) := by
  unfold repoUpdate at h
  split at h
  · rename_i hany
    exact ⟨hany, (Except.ok.injEq .. ▸ h).symm⟩
  · split at h <;> simp_all

/-- On success, UpdateWidget went through the fetch, the ownership and version
checks, the type/settings resolution and a successful repository update; this
lemma exposes all intermediate values. -/
theorem updateWidget_ok_inversion {st : SysState} {id userID : String}
    {req : UpdateWidgetRequest} {schemaOk : String → String → Bool} {now : Nat}
    {wd' : Widget} {st' : SysState} {fx : List Effect}
    (h : updateWidget st id userID req schemaOk now = (Except.ok wd', st', fx)) :
    ∃ v wd st1 fx1 wd1 effS store2,
      req.validB = true ∧
      req.version = some v ∧
      getWidgetByID st id = (Except.ok wd, st1, fx1) ∧
      wd.userID = userID ∧
      wd.version = v ∧
      resolveTypeAndSettings schemaOk wd req = Except.ok (wd1, effS) ∧
      wd' = applyFieldUpdates wd1 req effS ∧
      repoUpdate st1.store wd' now = Except.ok store2 ∧
      st'.store = store2 := by
  unfold updateWidget at h
  split at h
  · simp at h
  · split at h
    · simp at h
    · rename_i v hv
      split at h
      · simp at h
      · rename_i hvB
        split at h
        · simp at h
        · rename_i out wd st1 fx1 hfetch
          split at h
          · simp at h
          · split at h
            · simp at h
            · rename_i hownNe hverNe
              split at h
              · simp at h
              · rename_i res wd1 effS hres
                split at h
                · simp at h
                · rename_i store2 hupd
                  simp only [Prod.mk.injEq, Except.ok.injEq] at h
                  obtain ⟨h1, h2, -⟩ := h
                  subst h1
                  refine ⟨v, wd, st1, fx1, wd1, effS, store2,
                    not_not.mp (by simpa using hvB), hv, hfetch,
                    ?_, ?_, hres, rfl, hupd, by rw [← h2]⟩
                  · exact not_ne_iff.mp hownNe
                  · exact not_ne_iff.mp hverNe

/-- Two rows of a primary-key-respecting store with the same id are the same
row. -/
theorem store_id_inj {store : List Widget} (h : storeUniqueIds store)
    {a b : Widget} (ha : a ∈ store) (hb : b ∈ store) (hab : a.id = b.id) :
    a = b :=
  List.inj_on_of_nodup_map h ha hb hab

/-! ## C2 -/

/-- C2: whenever a single update succeeds on a primary-key store, the returned
widget's version and the persisted row's version both equal the pre-call
version of the row the update touched plus exactly one — with no assumption on
the read-through cache, since the store's conditional update itself only
matches a row whose version is the asserted previous one. -/
theorem update_bumps_version_by_one (st : SysState) (id userID : String)
    (req : UpdateWidgetRequest) (schemaOk : String → String → Bool) (now : Nat)
    (wd' : Widget) (st' : SysState) (fx : List Effect) (r : Widget)
    (hnodup : storeUniqueIds st.store)
    (hok : updateWidget st id userID req schemaOk now = (Except.ok wd', st', fx))
    (hr : r ∈ st.store) (hrid : r.id = wd'.id) :
    wd'.version = r.version + 1 ∧
    ∀ r2 ∈ st'.store, r2.id = wd'.id → r2.version = r.version + 1 := by
  obtain ⟨v, wd, st1, fx1, wd1, effS, store2, -, hv, hfetch, hown, hver, hres,
    hwd', hupd, hst'⟩ := updateWidget_ok_inversion hok
  have hst1 : st1.store = st.store := by
    have h := getWidgetByID_store_eq st id
    rw [hfetch] at h
    exact h
  obtain ⟨hany, hstore2⟩ := repoUpdate_ok hupd
  rw [hst1] at hany
  obtain ⟨rm, hrm, hrmm⟩ := List.any_eq_true.mp hany
  have hrmfacts : rm.id = wd'.id ∧ rm.version = wd'.version - 1 := by
    unfold updateMatches at hrmm
    simp only [Bool.and_eq_true, decide_eq_true_eq] at hrmm
    exact ⟨hrmm.1.1.1, hrmm.1.2⟩
  have hrmr : rm = r := store_id_inj hnodup hrm hr (by rw [hrmfacts.1, hrid])
  have hrver : r.version = wd'.version - 1 := by
    rw [← hrmr]
    exact hrmfacts.2
  have hmain : wd'.version = r.version + 1 := by omega
  refine ⟨hmain, ?_⟩
  intro r2 hr2 hr2id
  rw [hst', hstore2, hst1] at hr2
  obtain ⟨r3, hr3, hr3eq⟩ := List.mem_map.mp hr2
  by_cases hm : updateMatches wd' r3
  · rw [if_pos hm] at hr3eq
    rw [← hr3eq]
    show wd'.version = r.version + 1
    exact hmain
  · rw [if_neg hm] at hr3eq
    subst hr3eq
    have hr3r : r3 = r := store_id_inj hnodup hr3 hr (by rw [hr2id, hrid])
    exfalso
    apply hm
    rw [hr3r, ← hrmr]
    exact hrmm

/-- `storeUniqueIds` is decidable (it is a `Nodup` check). -/
instance storeUniqueIdsDec (store : List Widget) :
    Decidable (storeUniqueIds store) := by
  unfold storeUniqueIds
  exact inferInstance

/-- A pure position-move update request asserting version 1. -/
def reqMove : UpdateWidgetRequest :=
  { wtype := none, component := none, x := some 0, y := some 6, w := none,
    h := none, settings := none, displayName := none, isVisible := none,
    version := some 1 }

/-- The widget `wA` after the `reqMove` update. -/
def wMoved : Widget := { wA with y := 6, version := 2 }

/-- Witness for C2: a concrete successful update moves `wA` and bumps its
version from 1 to exactly 2. -/
theorem update_bumps_version_by_one_witness :
    (updateWidget stOne "w1" "u1" reqMove schemaOkAll 7).1 = Except.ok wMoved ∧
    wMoved.version = wA.version + 1 :=
  ⟨by decide,
   (update_bumps_version_by_one stOne "w1" "u1" reqMove schemaOkAll 7 wMoved
      (updateWidget stOne "w1" "u1" reqMove schemaOkAll 7).2.1
      (updateWidget stOne "w1" "u1" reqMove schemaOkAll 7).2.2 wA
      (by decide) (by decide) (by decide) (by decide)).1⟩

/-! ## C3 -/

/-- The widget `wA` at version 2. -/
def wV2 : Widget := { wA with version := 2 }

/-- State holding `wV2`, empty caches. -/
def stV2 : SysState :=
  { store := [wV2], widgetCache := [], listCache := [], users := ["u1"] }

/-- `stV2` after `GetWidgetByID` filled the cache. -/
def stV2C : SysState := { stV2 with widgetCache := [("widget:w1", wV2)] }

/-- An update request carrying only the (stale) version 1. -/
def reqStale : UpdateWidgetRequest :=
  { wtype := none, component := none, x := none, y := none, w := none,
    h := none, settings := none, displayName := none, isVisible := none,
    version := some 1 }

/-- C3 is refuted as stated: at a widget whose true current version is 2, an
update asserting version 1 does return a version conflict and mutates nothing,
but the error message is the fixed refresh-and-retry notice, which contains no
digit at all — in particular not the row's true current version.  (The message
that does carry both versions is the repository-level CAS conflict, which this
request never reaches.) -/
theorem staleVersion_conflict_lacks_versions_cx :
    wV2.version = 2 ∧
    (updateWidget stV2 "w1" "u1" reqStale schemaOkAll 7).1 =
      Except.error (AppError.conflict
        "widget has been modified, please refresh and try again") ∧
    ((updateWidget stV2 "w1" "u1" reqStale schemaOkAll 7).2.1).store = stV2.store ∧
    ("widget has been modified, please refresh and try again".data.all
      (fun c => !c.isDigit)) = true := by
  decide

/-- C3 (amended): an update whose supplied version differs from the fetched
widget's current version mutates nothing (the store is unchanged) and returns
a VersionConflict error whose message is the fixed string
"widget has been modified, please refresh and try again" — the two version
numbers are not included at this service-level check. -/
theorem staleVersion_conflict_no_mutation (st : SysState) (id userID : String)
    (req : UpdateWidgetRequest) (schemaOk : String → String → Bool) (now : Nat)
    (v : Int) (wd : Widget) (st1 : SysState) (fx1 : List Effect)
    (hid : id ≠ "") (hv : req.version = some v) (hvalid : req.validB = true)
    (hfetch : getWidgetByID st id = (Except.ok wd, st1, fx1))
    (hown : wd.userID = userID) (hne : wd.version ≠ v) :
    updateWidget st id userID req schemaOk now =
      (Except.error (AppError.conflict
        "widget has been modified, please refresh and try again"), st1, fx1) ∧
    st1.store = st.store := by
  constructor
  · simp [updateWidget, hid, hv, hvalid, hfetch, hown, hne]
  · have h := getWidgetByID_store_eq st id
    rw [hfetch] at h
    exact h

/-- Witness for the amended C3 at the concrete stale request. -/
theorem staleVersion_conflict_no_mutation_witness :
    reqStale.version = some 1 ∧ wV2.version ≠ 1 ∧
    updateWidget stV2 "w1" "u1" reqStale schemaOkAll 7 =
      (Except.error (AppError.conflict
        "widget has been modified, please refresh and try again"),
       stV2C, [Effect.cacheGet "widget:w1", Effect.storeRead,
               Effect.cacheSet "widget:w1"]) :=
  ⟨rfl, by decide,
   (staleVersion_conflict_no_mutation stV2 "w1" "u1" reqStale schemaOkAll 7 1
      wV2 stV2C
      [Effect.cacheGet "widget:w1", Effect.storeRead, Effect.cacheSet "widget:w1"]
      (by decide) rfl (by decide) (by decide) rfl (by decide)).1⟩

/-! ## C4 -/

/-- The transaction loop is exactly a left fold of the single-entry
conditional update over the request's entries: entries are consumed
left-to-right, each exactly once, and the first failure stops the fold. -/
theorem batchLoop_eq_foldlM (orig : List Widget) (now : Nat)
    (updates : List WidgetPositionUpdate) (work : List Widget) :
    batchLoop orig now work updates =
      updates.foldlM (applyPositionUpdate orig now) work := by
  induction updates generalizing work with
  | nil => rfl
  | cons u rest ih =>
    rw [List.foldlM_cons]
    unfold batchLoop
    cases h : applyPositionUpdate orig now work u with
    | error e => rfl
    | ok work2 => exact ih work2

/-- C4: under a validated batch whose entries all assert the caller as owner
(and an existing caller), the engine's result and resulting store are exactly
those of folding the per-entry conditional update — i-th step applies the i-th
entry — over the request's entries in the order supplied, each entry exactly
once; on success the folded store commits, on failure the store is unchanged. -/
theorem batch_applies_entries_elementwise (st : SysState) (userID : String)
    (req : BatchUpdateWidgetsRequest) (now : Nat)
    (hvalid : req.validB = true)
    (husr : getUserByID st userID = Except.ok ())
    (hown : ∀ u ∈ req.updates, u.userID = userID) :
    (batchUpdateWidgets st userID req now).1 =
      (req.updates.foldlM (applyPositionUpdate st.store now) st.store).map
        (fun _ => ()) ∧
    ((batchUpdateWidgets st userID req now).2.1).store =
      (match req.updates.foldlM (applyPositionUpdate st.store now) st.store with
       | Except.ok s2 => s2
       | Except.error _ => st.store) := by
  have hall : req.updates.all (fun u => u.userID = userID) = true := by
    simp only [List.all_eq_true, decide_eq_true_eq]
    exact hown
  have hloop : repoBatchUpdatePositions st.store req.updates now =
      req.updates.foldlM (applyPositionUpdate st.store now) st.store :=
    batchLoop_eq_foldlM st.store now req.updates st.store
  unfold batchUpdateWidgets
  rw [if_neg (by simp [hvalid]), husr]
  simp only []
  rw [if_neg (by simp [hall])]
  rw [hloop]
  cases hfold : req.updates.foldlM (applyPositionUpdate st.store now) st.store with
  | error e => simp [Except.map]
  | ok s2 => simp [Except.map]

/-- Witness for C4: the three-entry batch with matching versions succeeds and
its store equals the fold of the three conditional updates in order. -/
theorem batch_applies_entries_elementwise_witness :
    (batchUpdateWidgets stThree "u1"
        { updates := [posEntry "w1" 1, posEntry "w2" 1, posEntry "w3" 1] } 9).1 =
      (([posEntry "w1" 1, posEntry "w2" 1, posEntry "w3" 1].foldlM
          (applyPositionUpdate stThree.store 9) stThree.store).map (fun _ => ())) :=
  (batch_applies_entries_elementwise stThree "u1"
     { updates := [posEntry "w1" 1, posEntry "w2" 1, posEntry "w3" 1] } 9
     (by decide) (by decide) (by decide)).1

/-! ## C6 -/

/-- Membership is preserved by sorted insertion. -/
theorem mem_insertByPos {a wd : Widget} {l : List Widget} :
    a ∈ insertByPos wd l ↔ a = wd ∨ a ∈ l := by
  induction l with
  | nil => simp [insertByPos]
  | cons r rest ih =>
    unfold insertByPos
    split
    · simp only [List.mem_cons, ih]
      tauto
    · simp only [List.mem_cons]

/-- Membership is preserved by the position sort. -/
theorem mem_sortByPos {a : Widget} {l : List Widget} :
    a ∈ sortByPos l ↔ a ∈ l := by
  induction l with
  | nil => simp [sortByPos]
  | cons r rest ih => simp [sortByPos, mem_insertByPos, ih]

/-- C6: a soft-deleted widget row (distinct ids, no stale cache entry for it)
is invisible to the repository's owner listing, and get, update (with any
asserted version) and delete on its id all return NotFound — never a
VersionConflict and never a silent success; in particular deleting an
already-deleted widget returns NotFound. -/
theorem softDeleted_excluded_and_notFound (st : SysState) (userID : String)
    (req : UpdateWidgetRequest) (schemaOk : String → String → Bool)
    (now now2 : Nat) (v : Int) (r : Widget) (d : Nat)
    (hr : r ∈ st.store) (hdel : r.deletedAt = some d)
    (hnodup : storeUniqueIds st.store)
    (hmiss : assocFind st.widgetCache ("widget:" ++ r.id) = none)
    (hid : r.id ≠ "") (hv : req.version = some v) (hvalid : req.validB = true) :
    (getWidgetByID st r.id).1 =
      Except.error (AppError.notFound ("widget with ID " ++ r.id)) ∧
    (∀ uid, r ∉ repoGetByUserID st.store uid) ∧
    (updateWidget st r.id userID req schemaOk now).1 =
      Except.error (AppError.notFound ("widget with ID " ++ r.id)) ∧
    (deleteWidget st r.id userID now2).1 =
      Except.error (AppError.notFound ("widget with ID " ++ r.id)) := by
  have hfindnone :
      st.store.find? (fun r2 => (r2.id = r.id) && r2.deletedAt.isNone) = none := by
    rw [List.find?_eq_none]
    intro x hx hpx
    simp only [Bool.and_eq_true, decide_eq_true_eq] at hpx
    have hxr : x = r := store_id_inj hnodup hx hr hpx.1
    rw [hxr, hdel] at hpx
    simp at hpx
  have hrepo : repoGetByID st.store r.id =
      Except.error (AppError.notFound ("widget with ID " ++ r.id)) := by
    unfold repoGetByID
    rw [hfindnone]
  have hget : getWidgetByID st r.id =
      (Except.error (AppError.notFound ("widget with ID " ++ r.id)), st,
       [Effect.cacheGet ("widget:" ++ r.id), Effect.storeRead]) := by
    unfold getWidgetByID
    rw [if_neg hid, hmiss]
    simp only []
    rw [hrepo]
  refine ⟨by rw [hget], ?_, ?_, ?_⟩
  · intro uid hmem
    unfold repoGetByUserID at hmem
    rw [mem_sortByPos] at hmem
    have := List.of_mem_filter hmem
    simp only [Bool.and_eq_true, decide_eq_true_eq] at this
    rw [hdel] at this
    simp at this
  · unfold updateWidget
    rw [if_neg hid, hv]
    simp only []
    rw [if_neg (by simp [hvalid]), hget]
  · unfold deleteWidget
    rw [if_neg hid, hget]

/-- The widget `wA` soft-deleted at tick 4. -/
def wDel : Widget := { wA with deletedAt := some 4 }

/-- State holding only `wDel`. -/
def stDel : SysState :=
  { store := [wDel], widgetCache := [], listCache := [], users := ["u1"] }

/-- Witness for C6: concrete soft-deleted widget — get returns NotFound and a
repeated delete returns NotFound. -/
theorem softDeleted_excluded_and_notFound_witness :
    wDel.deletedAt = some 4 ∧
    (getWidgetByID stDel "w1").1 =
      Except.error (AppError.notFound ("widget with ID " ++ wDel.id)) ∧
    (deleteWidget stDel "w1" "u1" 5).1 =
      Except.error (AppError.notFound ("widget with ID " ++ wDel.id)) :=
  ⟨rfl,
   (softDeleted_excluded_and_notFound stDel "u1" reqStale schemaOkAll 7 5 1
      wDel 4 (by decide) rfl (by decide) rfl (by decide) rfl (by decide)).1,
   (softDeleted_excluded_and_notFound stDel "u1" reqStale schemaOkAll 7 5 1
      wDel 4 (by decide) rfl (by decide) rfl (by decide) rfl (by decide)).2.2.2⟩

/-! ## C7 -/

/-- Successful create: the request validated, the type was registered, the
returned widget is the built widget (carrying the request's coordinates and
size verbatim), and it was appended to the store. -/
theorem createWidget_ok_inversion {st : SysState} {userID : String}
    {req : CreateWidgetRequest} {schemaOk : String → String → Bool}
    {freshId : String} {now : Nat} {wd' : Widget} {st' : SysState}
    {fx : List Effect}
    (h : createWidget st userID req schemaOk freshId now =
      (Except.ok wd', st', fx)) :
    req.validB = true ∧
    validWidgetType req.wtype = true ∧
    (∃ effS, wd' = builtWidget userID req effS freshId now) ∧
    st'.store = st.store ++ [wd'] := by
  unfold createWidget at h
  split at h
  · simp at h
  · rename_i hvB
    split at h
    · simp at h
    · rename_i htype
      split at h
      · simp at h
      · rename_i effS hsettings
        split at h
        · simp at h
        · split at h
          · simp at h
          · rename_i store2 hcreate
            simp only [Prod.mk.injEq, Except.ok.injEq] at h
            obtain ⟨h1, h2, -⟩ := h
            subst h1
            unfold repoCreate at hcreate
            split at hcreate
            · simp at hcreate
            · refine ⟨not_not.mp (by simpa using hvB),
                not_not.mp (by simpa using htype), ⟨effS, rfl⟩, ?_⟩
              rw [← h2]
              simp only []
              injection hcreate with h3
              rw [← h3]

/-- The request-tag bounds every accepted widget does satisfy. -/
def inRequestBounds (wd : Widget) : Prop :=
  0 ≤ wd.x ∧ 0 ≤ wd.y ∧ 1 ≤ wd.w ∧ wd.w ≤ 12 ∧ 1 ≤ wd.h

/-- `inRequestBounds` is decidable. -/
instance inRequestBoundsDec (wd : Widget) : Decidable (inRequestBounds wd) := by
  unfold inRequestBounds
  exact inferInstance

/-- A create request for a registered "experience" widget whose 1 by 1 size
lies below that type's registered minimum size of 3 by 2. -/
def reqSmall : CreateWidgetRequest :=
  { wtype := "experience", component := "ExperienceWidget", x := 0, y := 0,
    w := 1, h := 1, settings := "", displayName := "" }

/-- C7 is refuted as stated: the engine accepts (and persists) an "experience"
widget of size 1 by 1 although the registered type bounds require
`minSize = (3, 2)` — the per-type `[minSize, maxSize]` bounds are not checked
by create (or update); only the request-tag bounds are. -/
theorem typeSize_bounds_not_enforced_cx :
    experienceConfig.minW = 3 ∧ experienceConfig.minH = 2 ∧
    registryFind "experience" = some experienceConfig ∧
    (createWidget stOne "u1" reqSmall schemaOkAll "new1" 3).1 =
      Except.ok (builtWidget "u1" reqSmall
        "\x7b\"experiences\":[],\"showDates\":true\x7d" "new1" 3) ∧
    (builtWidget "u1" reqSmall
        "\x7b\"experiences\":[],\"showDates\":true\x7d" "new1" 3).w = 1 ∧
    ¬ (experienceConfig.minW ≤
        (builtWidget "u1" reqSmall
          "\x7b\"experiences\":[],\"showDates\":true\x7d" "new1" 3).w) := by
  decide

/-- C7 (amended): create and update enforce the request-level bounds —
`x ≥ 0`, `y ≥ 0`, `1 ≤ w ≤ 12`, `1 ≤ h` — not the per-type registry bounds:
an invalid create request is rejected as BadRequest with no state change and
no effect; every widget returned by a successful create satisfies the request
bounds; an invalid update request (non-empty id) is rejected as BadRequest
with no state change and no effect; and a successful update whose fetch
returned a widget within the request bounds returns a widget within them. -/
theorem request_bounds_enforced (st : SysState) (userID freshId id : String)
    (reqC : CreateWidgetRequest) (reqU : UpdateWidgetRequest)
    (schemaOk : String → String → Bool) (now : Nat)
    (wdC : Widget) (stC : SysState) (fxC : List Effect)
    (wdU : Widget) (stU : SysState) (fxU : List Effect)
    (r : Widget) (st1 : SysState) (fx1 : List Effect) :
    (reqC.validB = false →
      createWidget st userID reqC schemaOk freshId now =
        (Except.error (AppError.badRequest "invalid create widget request"),
         st, [])) ∧
    (createWidget st userID reqC schemaOk freshId now = (Except.ok wdC, stC, fxC) →
      inRequestBounds wdC) ∧
    (id ≠ "" → reqU.validB = false →
      ∃ m, updateWidget st id userID reqU schemaOk now =
        (Except.error (AppError.badRequest m), st, [])) ∧
    (getWidgetByID st id = (Except.ok r, st1, fx1) → inRequestBounds r →
      updateWidget st id userID reqU schemaOk now = (Except.ok wdU, stU, fxU) →
      inRequestBounds wdU) := by
  refine ⟨?_, ?_, ?_, ?_⟩
  · intro hfalse
    unfold createWidget
    rw [if_pos (by simp [hfalse])]
  · intro hok
    obtain ⟨hvB, -, ⟨effS, hwd⟩, -⟩ := createWidget_ok_inversion hok
    unfold CreateWidgetRequest.validB at hvB
    simp only [Bool.and_eq_true, decide_eq_true_eq] at hvB
    obtain ⟨⟨⟨⟨⟨⟨-, -⟩, hx⟩, hy⟩, hw1⟩, hw2⟩, hh⟩ := hvB
    subst hwd
    exact ⟨hx, hy, hw1, hw2, hh⟩
  · intro hid hfalse
    unfold updateWidget
    rw [if_neg hid]
    cases hv : reqU.version with
    | none =>
      exact ⟨"version is required for updates", rfl⟩
    | some v =>
      refine ⟨"invalid update widget request", ?_⟩
      show (if ¬reqU.validB = true then _ else _) = _
      rw [if_pos (by simp [hfalse])]
  · intro hfetch hrb hok
    obtain ⟨v, wd, st1b, fx1b, wd1, effS, store2, hvB, hv, hfetch2, hown, hver,
      hres, hwd', hupd, hst'⟩ := updateWidget_ok_inversion hok
    rw [hfetch] at hfetch2
    simp only [Prod.mk.injEq, Except.ok.injEq] at hfetch2
    obtain ⟨hwdeq, -, -⟩ := hfetch2
    subst hwdeq
    have hwb := hrb
    have hframe := resolveTypeAndSettings_frame hres
    unfold UpdateWidgetRequest.validB at hvB
    simp only [Bool.and_eq_true] at hvB
    obtain ⟨⟨⟨⟨hx, hy⟩, hw⟩, hh⟩, -⟩ := hvB
    subst hwd'
    have hx1 : wd1.x = r.x := by rw [hframe]
    have hy1 : wd1.y = r.y := by rw [hframe]
    have hw1 : wd1.w = r.w := by rw [hframe]
    have hh1 : wd1.h = r.h := by rw [hframe]
    refine ⟨?_, ?_, ?_, ?_, ?_⟩
    · cases hrx : reqU.x with
      | some xv =>
        have he : (applyFieldUpdates wd1 reqU effS).x = xv := by
          simp [applyFieldUpdates, hrx]
        rw [he]
        rw [hrx] at hx
        simpa using hx
      | none =>
        have he : (applyFieldUpdates wd1 reqU effS).x = wd1.x := by
          simp [applyFieldUpdates, hrx]
        rw [he, hx1]
        exact hwb.1
    · cases hry : reqU.y with
      | some yv =>
        have he : (applyFieldUpdates wd1 reqU effS).y = yv := by
          simp [applyFieldUpdates, hry]
        rw [he]
        rw [hry] at hy
        simpa using hy
      | none =>
        have he : (applyFieldUpdates wd1 reqU effS).y = wd1.y := by
          simp [applyFieldUpdates, hry]
        rw [he, hy1]
        exact hwb.2.1
    · cases hrw : reqU.w with
      | some wv =>
        have he : (applyFieldUpdates wd1 reqU effS).w = wv := by
          simp [applyFieldUpdates, hrw]
        rw [he]
        rw [hrw] at hw
        simp only [Bool.and_eq_true, decide_eq_true_eq] at hw
        exact hw.1
      | none =>
        have he : (applyFieldUpdates wd1 reqU effS).w = wd1.w := by
          simp [applyFieldUpdates, hrw]
        rw [he, hw1]
        exact hwb.2.2.1
    · cases hrw : reqU.w with
      | some wv =>
        have he : (applyFieldUpdates wd1 reqU effS).w = wv := by
          simp [applyFieldUpdates, hrw]
        rw [he]
        rw [hrw] at hw
        simp only [Bool.and_eq_true, decide_eq_true_eq] at hw
        exact hw.2
      | none =>
        have he : (applyFieldUpdates wd1 reqU effS).w = wd1.w := by
          simp [applyFieldUpdates, hrw]
        rw [he, hw1]
        exact hwb.2.2.2.1
    · cases hrh : reqU.h with
      | some hv2 =>
        have he : (applyFieldUpdates wd1 reqU effS).h = hv2 := by
          simp [applyFieldUpdates, hrh]
        rw [he]
        rw [hrh] at hh
        simpa using hh
      | none =>
        have he : (applyFieldUpdates wd1 reqU effS).h = wd1.h := by
          simp [applyFieldUpdates, hrh]
        rw [he, hh1]
        exact hwb.2.2.2.2

/-- Witness for the amended C7, exercising all four arms: rejection of an
out-of-tag-bounds create (w = 0) and of an out-of-tag-bounds update
(w = some 0), and the request bounds on a concrete created widget and on a
concrete updated widget. -/
theorem request_bounds_enforced_witness :
    ({ reqSmall with w := 0 } : CreateWidgetRequest).validB = false ∧
    createWidget stOne "u1" { reqSmall with w := 0 } schemaOkAll "new1" 3 =
      (Except.error (AppError.badRequest "invalid create widget request"),
       stOne, []) ∧
    inRequestBounds (builtWidget "u1" reqSmall
      "\x7b\"experiences\":[],\"showDates\":true\x7d" "new1" 3) ∧
    ({ reqMove with w := some 0 } : UpdateWidgetRequest).validB = false ∧
    (∃ m, updateWidget stOne "w1" "u1" { reqMove with w := some 0 }
        schemaOkAll 7 = (Except.error (AppError.badRequest m), stOne, [])) ∧
    inRequestBounds wMoved :=
  ⟨by decide,
   (request_bounds_enforced stOne "u1" "new1" "w1" { reqSmall with w := 0 }
      reqStale schemaOkAll 3 wA stOne [] wA stOne [] wA stOne []).1 (by decide),
   (request_bounds_enforced stOne "u1" "new1" "w1" reqSmall reqStale schemaOkAll 3
      (builtWidget "u1" reqSmall "\x7b\"experiences\":[],\"showDates\":true\x7d"
        "new1" 3)
      (createWidget stOne "u1" reqSmall schemaOkAll "new1" 3).2.1
      (createWidget stOne "u1" reqSmall schemaOkAll "new1" 3).2.2
      wA stOne [] wA stOne []).2.1 (by decide),
   by decide,
   (request_bounds_enforced stOne "u1" "new1" "w1" reqSmall
      { reqMove with w := some 0 } schemaOkAll 7 wA stOne [] wA stOne []
      wA stOne []).2.2.1 (by decide) (by decide),
   (request_bounds_enforced stOne "u1" "new1" "w1" reqSmall reqMove schemaOkAll 7
      wA stOne [] wMoved
      (updateWidget stOne "w1" "u1" reqMove schemaOkAll 7).2.1
      (updateWidget stOne "w1" "u1" reqMove schemaOkAll 7).2.2
      wA
      (getWidgetByID stOne "w1").2.1
      (getWidgetByID stOne "w1").2.2).2.2.2 (by decide) (by decide) (by decide)⟩

/-! ## C8 -/

/-- The marshalled default settings of a registered type are never the empty
string (both registry entries marshal to non-empty JSON objects). -/
theorem getDefaultSettings_ne_empty {t d : String}
    (h : getDefaultSettings t = Except.ok d) : d ≠ "" := by
  by_cases h1 : t = "experience"
  · simp [getDefaultSettings, getWidgetTypeConfig, registryFind, h1] at h
    rw [← h]
    decide
  · by_cases h2 : t = "education"
    · simp [getDefaultSettings, getWidgetTypeConfig, registryFind, h1, h2] at h
      rw [← h]
      decide
    · simp [getDefaultSettings, getWidgetTypeConfig, registryFind, h1, h2] at h

/-- C8: a widget created without a settings payload stores exactly its type's
registered default settings; and an update that changes the widget's type
without supplying settings resets the settings to the *new* type's registered
defaults. -/
theorem default_settings_on_create_and_type_change
    (st : SysState) (userID freshId id : String)
    (reqC : CreateWidgetRequest) (reqU : UpdateWidgetRequest)
    (schemaOk : String → String → Bool) (now : Nat)
    (wdC : Widget) (stC : SysState) (fxC : List Effect)
    (wdU : Widget) (stU : SysState) (fxU : List Effect)
    (t : String) (wd : Widget) (st1 : SysState) (fx1 : List Effect) :
    (reqC.settings = "" →
      createWidget st userID reqC schemaOk freshId now =
        (Except.ok wdC, stC, fxC) →
      ∃ d, getDefaultSettings reqC.wtype = Except.ok d ∧
        wdC.settings = some d ∧ wdC ∈ stC.store) ∧
    (reqU.settings = none → reqU.wtype = some t →
      getWidgetByID st id = (Except.ok wd, st1, fx1) → t ≠ wd.wtype →
      updateWidget st id userID reqU schemaOk now = (Except.ok wdU, stU, fxU) →
      ∃ d, getDefaultSettings t = Except.ok d ∧ wdU.settings = some d) := by
  constructor
  · intro hset0 hok
    unfold createWidget at hok
    split at hok
    · simp at hok
    · split at hok
      · simp at hok
      · split at hok
        · simp at hok
        · rename_i effS hsettings
          split at hok
          · simp at hok
          · split at hok
            · simp at hok
            · rename_i store2 hcreate
              simp only [Prod.mk.injEq, Except.ok.injEq] at hok
              obtain ⟨h1, h2, -⟩ := hok
              subst h1
              rw [if_neg (by simp [hset0])] at hsettings
              cases hd : getDefaultSettings reqC.wtype with
              | error e =>
                rw [hd] at hsettings
                simp at hsettings
              | ok d =>
                rw [hd] at hsettings
                simp only [Except.ok.injEq] at hsettings
                subst hsettings
                have hne := getDefaultSettings_ne_empty hd
                refine ⟨d, rfl, by simp [builtWidget, hne], ?_⟩
                unfold repoCreate at hcreate
                split at hcreate
                · simp at hcreate
                · injection hcreate with h3
                  rw [← h2]
                  simp only []
                  rw [← h3]
                  simp
  · intro hsetN htype hfetch hneq hok
    obtain ⟨v, wd2, st1b, fx1b, wd1, effS, store2, hvB, hv, hfetch2, hown,
      hver, hres, hwd', hupd, hst'⟩ := updateWidget_ok_inversion hok
    rw [hfetch] at hfetch2
    simp only [Prod.mk.injEq, Except.ok.injEq] at hfetch2
    obtain ⟨hwdeq, -, -⟩ := hfetch2
    subst hwdeq
    unfold resolveTypeAndSettings at hres
    rw [htype] at hres
    simp only [] at hres
    rw [if_pos hneq] at hres
    split at hres
    · simp at hres
    · rw [hsetN] at hres
      simp only [] at hres
      cases hd : getDefaultSettings t with
      | error e =>
        rw [hd] at hres
        simp at hres
      | ok d =>
        rw [hd] at hres
        simp only [Except.ok.injEq, Prod.mk.injEq] at hres
        obtain ⟨-, heff⟩ := hres
        refine ⟨d, rfl, ?_⟩
        subst hwd'
        rw [← heff]
        simp [applyFieldUpdates]

/-- A create request with default size and no settings payload. -/
def reqCreateDefault : CreateWidgetRequest := { reqSmall with w := 6, h := 4 }

/-- An update request changing the type to "education" without settings. -/
def reqTypeChange : UpdateWidgetRequest :=
  { wtype := some "education", component := none, x := none, y := none,
    w := none, h := none, settings := none, displayName := none,
    isVisible := none, version := some 1 }

/-- Witness for C8 at concrete inputs: a create without settings stores the
"experience" defaults, and a type change to "education" without settings
stores the "education" defaults. -/
theorem default_settings_on_create_and_type_change_witness :
    reqCreateDefault.settings = "" ∧
    (∃ d, getDefaultSettings "experience" = Except.ok d ∧
      (builtWidget "u1" reqCreateDefault
        "\x7b\"experiences\":[],\"showDates\":true\x7d" "new1" 3).settings =
          some d ∧
      (builtWidget "u1" reqCreateDefault
        "\x7b\"experiences\":[],\"showDates\":true\x7d" "new1" 3) ∈
        ((createWidget stOne "u1" reqCreateDefault schemaOkAll "new1" 3).2.1).store) ∧
    (∃ d, getDefaultSettings "education" = Except.ok d ∧
      ({ wA with wtype := "education",
                 settings := some "\x7b\"schools\":[]\x7d",
                 version := 2 } : Widget).settings = some d) :=
  ⟨rfl,
   (default_settings_on_create_and_type_change stOne "u1" "new1" "w1"
      reqCreateDefault reqTypeChange schemaOkAll 3
      (builtWidget "u1" reqCreateDefault
        "\x7b\"experiences\":[],\"showDates\":true\x7d" "new1" 3)
      (createWidget stOne "u1" reqCreateDefault schemaOkAll "new1" 3).2.1
      (createWidget stOne "u1" reqCreateDefault schemaOkAll "new1" 3).2.2
      wA stOne [] "education" wA stOne []).1 rfl (by decide),
   (default_settings_on_create_and_type_change stOne "u1" "new1" "w1"
      reqCreateDefault reqTypeChange schemaOkAll 7
      wA stOne [] { wA with wtype := "education",
                            settings := some "\x7b\"schools\":[]\x7d",
                            version := 2 }
      (updateWidget stOne "w1" "u1" reqTypeChange schemaOkAll 7).2.1
      (updateWidget stOne "w1" "u1" reqTypeChange schemaOkAll 7).2.2
      "education" wA
      (getWidgetByID stOne "w1").2.1 (getWidgetByID stOne "w1").2.2).2
     rfl rfl (by decide) (by decide) (by decide)⟩

/-! ## C9 -/

/-- C9 is refuted as stated: a successful update that changes the type but
does not supply settings (the settings field is absent from the request)
nevertheless changes the stored settings — they are reset to the new type's
defaults, so an absent field does not always retain its prior value. -/
theorem frame_violated_on_type_change_cx :
    reqTypeChange.settings = none ∧
    wA.settings = some "custom" ∧
    (updateWidget stOne "w1" "u1" reqTypeChange schemaOkAll 7).1 =
      Except.ok { wA with wtype := "education",
                          settings := some "\x7b\"schools\":[]\x7d",
                          version := 2 } ∧
    ({ wA with wtype := "education", settings := some "\x7b\"schools\":[]\x7d",
               version := 2 } : Widget).settings ≠ wA.settings := by
  decide

/-- When the request leaves the type absent or re-asserts the current type,
the type-change block is a no-op: the widget passes through unchanged and the
effective settings are exactly the request's. -/
theorem resolveTypeAndSettings_no_change {schemaOk : String → String → Bool}
    {wd wd1 : Widget} {req : UpdateWidgetRequest} {effS : Option String}
    (ht : req.wtype = none ∨ req.wtype = some wd.wtype)
    (h : resolveTypeAndSettings schemaOk wd req = Except.ok (wd1, effS)) :
    wd1 = wd ∧ effS = req.settings := by
  unfold resolveTypeAndSettings at h
  rcases ht with ht | ht
  · cases hsq : req.settings with
    | some s =>
      rw [ht, hsq] at h
      simp only [] at h
      split at h
      · simp at h
      · simp only [Except.ok.injEq, Prod.mk.injEq] at h
        exact ⟨h.1.symm, h.2.symm⟩
    | none =>
      rw [ht, hsq] at h
      simp only [Except.ok.injEq, Prod.mk.injEq] at h
      exact ⟨h.1.symm, h.2.symm⟩
  · cases hsq : req.settings with
    | some s =>
      rw [ht, hsq] at h
      simp only [] at h
      rw [if_neg (by simp)] at h
      try simp only [] at h
      split at h
      · simp at h
      · simp only [Except.ok.injEq, Prod.mk.injEq] at h
        exact ⟨h.1.symm, h.2.symm⟩
    | none =>
      rw [ht, hsq] at h
      simp only [] at h
      rw [if_neg (by simp)] at h
      simp only [Except.ok.injEq, Prod.mk.injEq] at h
      exact ⟨h.1.symm, h.2.symm⟩

/-- C9 (amended): partial-update semantics of a successful single update whose
fetch returned the pre-call store row `r` (the read-through case — always so
for a cache miss, and the only way a stale entry can pass the version check):
identity, owner, creation time and deletion mark never change; the version is
the row's plus one; every field absent from the request keeps the row's value
— with the one exception forced by the type-change rule: absent settings are
preserved only when the type is absent or unchanged (a type change resets them
to the new type's defaults, per C8); and the persisted row is exactly the
returned widget with `updated_at` restamped. -/
theorem partial_update_frame (st : SysState) (id userID : String)
    (reqU : UpdateWidgetRequest) (schemaOk : String → String → Bool) (now : Nat)
    (wdU : Widget) (stU : SysState) (fxU : List Effect) (r : Widget)
    (st1 : SysState) (fx1 : List Effect)
    (hnodup : storeUniqueIds st.store)
    (hfetch : getWidgetByID st id = (Except.ok r, st1, fx1))
    (hr : r ∈ st.store)
    (hok : updateWidget st id userID reqU schemaOk now = (Except.ok wdU, stU, fxU)) :
    wdU.id = r.id ∧ wdU.userID = r.userID ∧
    wdU.version = r.version + 1 ∧
    wdU.createdAt = r.createdAt ∧ wdU.deletedAt = r.deletedAt ∧
    (reqU.wtype = none → wdU.wtype = r.wtype) ∧
    (reqU.component = none → wdU.component = r.component) ∧
    (reqU.x = none → wdU.x = r.x) ∧
    (reqU.y = none → wdU.y = r.y) ∧
    (reqU.w = none → wdU.w = r.w) ∧
    (reqU.h = none → wdU.h = r.h) ∧
    (reqU.displayName = none → wdU.displayName = r.displayName) ∧
    (reqU.isVisible = none → wdU.isVisible = r.isVisible) ∧
    (reqU.settings = none →
      (reqU.wtype = none ∨ reqU.wtype = some r.wtype) →
      wdU.settings = r.settings) ∧
    (∀ r2 ∈ stU.store, r2.id = r.id → r2 = { wdU with updatedAt := now }) := by
  obtain ⟨v, wd, st1b, fx1b, wd1, effS, store2, hvB, hv, hfetch2, hown, hver,
    hres, hwd', hupd, hst'⟩ := updateWidget_ok_inversion hok
  rw [hfetch] at hfetch2
  simp only [Prod.mk.injEq, Except.ok.injEq] at hfetch2
  obtain ⟨hwdeq, hst1eq, -⟩ := hfetch2
  subst hwdeq
  have hst1 : st1b.store = st.store := by
    have h := getWidgetByID_store_eq st id
    rw [hfetch] at h
    rw [← hst1eq]
    exact h
  have hframe := resolveTypeAndSettings_frame hres
  subst hwd'
  have hid1 : wd1.id = r.id := by rw [hframe]
  have huid1 : wd1.userID = r.userID := by rw [hframe]
  have hver1 : wd1.version = r.version := by rw [hframe]
  have hcre1 : wd1.createdAt = r.createdAt := by rw [hframe]
  have hdel1 : wd1.deletedAt = r.deletedAt := by rw [hframe]
  have hcom1 : wd1.component = r.component := by rw [hframe]
  have hx1 : wd1.x = r.x := by rw [hframe]
  have hy1 : wd1.y = r.y := by rw [hframe]
  have hw1 : wd1.w = r.w := by rw [hframe]
  have hh1 : wd1.h = r.h := by rw [hframe]
  have hset1 : wd1.settings = r.settings := by rw [hframe]
  have hdis1 : wd1.displayName = r.displayName := by rw [hframe]
  have hvis1 : wd1.isVisible = r.isVisible := by rw [hframe]
  have hidU : (applyFieldUpdates wd1 reqU effS).id = r.id := hid1
  have huidU : (applyFieldUpdates wd1 reqU effS).userID = r.userID := huid1
  have hverU : (applyFieldUpdates wd1 reqU effS).version = r.version + 1 := by
    show wd1.version + 1 = r.version + 1
    rw [hver1]
  have hcreU : (applyFieldUpdates wd1 reqU effS).createdAt = r.createdAt := hcre1
  have hdelU : (applyFieldUpdates wd1 reqU effS).deletedAt = r.deletedAt := hdel1
  refine ⟨hidU, huidU, hverU, hcreU, hdelU, ?_, ?_, ?_, ?_, ?_, ?_, ?_, ?_, ?_, ?_⟩
  · intro htN
    obtain ⟨hwd1, -⟩ := resolveTypeAndSettings_no_change (Or.inl htN) hres
    show wd1.wtype = r.wtype
    rw [hwd1]
  · intro hcN
    show (match reqU.component with | some c => c | none => wd1.component) =
      r.component
    rw [hcN, hcom1]
  · intro hxN
    show (match reqU.x with | some xv => xv | none => wd1.x) = r.x
    rw [hxN, hx1]
  · intro hyN
    show (match reqU.y with | some yv => yv | none => wd1.y) = r.y
    rw [hyN, hy1]
  · intro hwN
    show (match reqU.w with | some wv => wv | none => wd1.w) = r.w
    rw [hwN, hw1]
  · intro hhN
    show (match reqU.h with | some hv2 => hv2 | none => wd1.h) = r.h
    rw [hhN, hh1]
  · intro hdN
    show (match reqU.displayName with | some d => some d | none => wd1.displayName) =
      r.displayName
    rw [hdN, hdis1]
  · intro hvN
    show (match reqU.isVisible with | some b => b | none => wd1.isVisible) =
      r.isVisible
    rw [hvN, hvis1]
  · intro hsN htOk
    obtain ⟨-, heff⟩ := resolveTypeAndSettings_no_change htOk hres
    rw [hsN] at heff
    subst heff
    exact hset1
  · intro r2 hr2 hr2id
    obtain ⟨hany, hstore2⟩ := repoUpdate_ok hupd
    rw [hst', hstore2, hst1] at hr2
    obtain ⟨r3, hr3, hr3eq⟩ := List.mem_map.mp hr2
    have happly : applyRepoUpdate (applyFieldUpdates wd1 reqU effS) now r =
        { applyFieldUpdates wd1 reqU effS with updatedAt := now } := by
      simp [applyRepoUpdate, Widget.mk.injEq, hidU, huidU, hcreU, hdelU]
    by_cases hm : updateMatches (applyFieldUpdates wd1 reqU effS) r3
    · rw [if_pos hm] at hr3eq
      have hr3id : r3.id = (applyFieldUpdates wd1 reqU effS).id := by
        unfold updateMatches at hm
        simp only [Bool.and_eq_true, decide_eq_true_eq] at hm
        exact hm.1.1.1
      have hr3w : r3 = r := store_id_inj hnodup hr3 hr (by rw [hr3id, hidU])
      rw [← hr3eq, hr3w, happly]
    · rw [if_neg hm] at hr3eq
      subst hr3eq
      have hr3w : r3 = r := store_id_inj hnodup hr3 hr hr2id
      subst hr3w
      exfalso
      apply hm
      rw [hst1] at hany
      obtain ⟨rm, hrm, hrmm⟩ := List.any_eq_true.mp hany
      have hrmid : rm.id = (applyFieldUpdates wd1 reqU effS).id := by
        unfold updateMatches at hrmm
        simp only [Bool.and_eq_true, decide_eq_true_eq] at hrmm
        exact hrmm.1.1.1
      have : rm = r3 := store_id_inj hnodup hrm hr3 (by rw [hrmid, hidU])
      rwa [this] at hrmm
/-- Witness for the amended C9: the concrete position move leaves every absent
field of `wA` unchanged while bumping the version. -/
theorem partial_update_frame_witness :
    reqMove.settings = none ∧ reqMove.wtype = none ∧
    wMoved.settings = wA.settings ∧ wMoved.wtype = wA.wtype :=
  ⟨rfl, rfl,
   (partial_update_frame stOne "w1" "u1" reqMove schemaOkAll 7 wMoved
      (updateWidget stOne "w1" "u1" reqMove schemaOkAll 7).2.1
      (updateWidget stOne "w1" "u1" reqMove schemaOkAll 7).2.2 wA
      (getWidgetByID stOne "w1").2.1 (getWidgetByID stOne "w1").2.2
      (by decide) (by decide) (by decide)
      (by decide)).2.2.2.2.2.2.2.2.2.2.2.2.2.1 rfl (Or.inl rfl),
   (partial_update_frame stOne "w1" "u1" reqMove schemaOkAll 7 wMoved
      (updateWidget stOne "w1" "u1" reqMove schemaOkAll 7).2.1
      (updateWidget stOne "w1" "u1" reqMove schemaOkAll 7).2.2 wA
      (getWidgetByID stOne "w1").2.1 (getWidgetByID stOne "w1").2.2
      (by decide) (by decide) (by decide)
      (by decide)).2.2.2.2.2.1 rfl⟩

end Perfolio
